import Mathlib

/-!
Shallow embedding of the puteus content-watch pipeline (`app/check_source.py`,
`app/routers/check_source.py`, `app/tasks.py`) and of the dynamic-content
scraper (`app/scraper.py`), together with theorems settling the specification
claims about them.

Conventions of the embedding:
* Python `str` is Lean `String`; slicing `s[:n]` is `pyTake`, `str.strip()` is
  `pyStrip` (restricted to ASCII whitespace — every input used in the proofs is
  ASCII), `s.split("\n")[0]` is `firstLine`.
* Database rows are records in an explicit `DB` state; SQL queries are list
  operations over that state.  UUIDs are drawn from a fresh counter, and the
  server-side `created_at` timestamp from a strictly increasing counter, which
  mirrors the fact that each committed row receives a later timestamp than all
  rows committed before it.
* The SHA-256 hex digest (`hashlib.sha256(...).hexdigest()`) is an external
  primitive; the pipeline is parameterised by it (`sha256hex`).  No claim
  depends on the concrete digest function, only on the computed values.
* The CSS / XPath / regex engines (BeautifulSoup, lxml, `re`) are external;
  `extract_content` is parameterised by an `engine` oracle giving the result
  (or the raised exception message) of evaluating a selector of a known kind.
* Exceptions become `Except` values; an HTTP error is the pair
  `(status_code, detail)`.
-/

namespace Puteus

/-! ## Python string primitives -/

/-- Characters removed by Python `str.strip()` (ASCII fragment). -/
def isPySpace (c : Char) : Bool :=
  c == ' ' || c == '\t' || c == '\n' || c == '\r' || c == '\x0b' || c == '\x0c'

/-- Python slicing `s[:n]`. -/
def pyTake (s : String) (n : Nat) : String :=
  ⟨s.data.take n⟩

/-- Python `s.strip()` (ASCII whitespace). -/
def pyStrip (s : String) : String :=
  ⟨((s.data.dropWhile isPySpace).reverse.dropWhile isPySpace).reverse⟩

/-- Python `s.split("\n")[0]` (the split list is never empty). -/
def firstLine (s : String) : String :=
  ⟨s.data.takeWhile (fun c => c ≠ '\n')⟩

/-! ## Data model (`app/models/sources.py`, `app/models/articles.py`)

`WatchLog` and `Article` rows carry the columns the pipeline reads or writes;
`active` defaults to `true` (SoftDeletionMixin) and `created_at` is set by the
database on commit (TimeAuditMixin). -/

/-- The three members of the `WatchableSelectorType` enum. -/
inductive WatchableSelectorType where
  | css
  | xpath
  | regex
deriving DecidableEq, Repr

/-- A runtime value passed as `selector_type`: either a member of the enum or
some other value (Python performs no runtime check on the parameter). -/
inductive SelectorTypeValue where
  | known : WatchableSelectorType → SelectorTypeValue
  | other : String → SelectorTypeValue
deriving DecidableEq, Repr

/-- Python `f-string` rendering of a `selector_type` value (a `StrEnum` member
renders as its lower-case value). -/
def selectorTypeStr : SelectorTypeValue → String
  | .known .css => "css"
  | .known .xpath => "xpath"
  | .known .regex => "regex"
  | .other tag => tag

/-- A `Source` row (the columns `check_source` reads). -/
structure Source where
  uuid : Nat
  uri : String
  active : Bool
  watchable_selector : Option String
  watchable_selector_type : Option SelectorTypeValue
deriving DecidableEq, Repr

/-- A `WatchLog` row. -/
structure WatchLog where
  uuid : Nat
  source_uuid : Nat
  previous_uuid : Option Nat
  content_hash : Option String
  created_at : Nat
  active : Bool
deriving DecidableEq, Repr

/-- An `Article` row (the columns `create_article` writes). -/
structure Article where
  watchlog_uuid : Option Nat
  title : String
  uri : String
  description : Option String
  is_newsworthy : Bool
deriving DecidableEq, Repr

/-- The database state visible to the pipeline. -/
structure DB where
  sources : List Source
  watchlogs : List WatchLog
  articles : List Article
  nextUuid : Nat
  nextTime : Nat
deriving DecidableEq, Repr

/-! ## CheckSourceService (`app/check_source.py`) -/

namespace CheckSourceService

/-- A Python exception value observed inside the `try` block of
`extract_content`: the explicitly raised `HTTPException` or an exception from
one of the selector engines. -/
inductive PyExc where
  | httpExc (status : Nat) (detail : String)
  | engineExc (msg : String)
deriving DecidableEq, Repr

/-- Python `str(e)` (Starlette's `HTTPException.__str__` renders as
`"status_code: detail"`). -/
def pyStrExc : PyExc → String
  | .httpExc st d => toString st ++ ": " ++ d
  | .engineExc m => m

/-- An oracle for the external selector engines: for a known selector kind,
the extracted text or the message of the raised exception. -/
def Engine : Type :=
  WatchableSelectorType → String → String → Except String String

/-- The body of `CheckSourceService.extract_content` (lines 107-164).  The
empty-content and empty-selector guards sit before the `try` block; inside it,
the unsupported-kind branch raises `HTTPException(400, ...)`, and the
`except Exception` handler wraps every exception of the block — including that
`HTTPException` — into `HTTPException(500, "Error extracting content ...")`. -/
def extract_content (engine : Engine) (content selector : String)
    (selector_type : SelectorTypeValue) : Except (Nat × String) String :=
  if content = "" then .ok ""
  else if selector = "" then .ok content
  else
    let body : Except PyExc String :=
      match selector_type with
      | .known k =>
        match engine k selector content with
        | .ok s => .ok s
        | .error m => .error (.engineExc m)
      | .other _ =>
        .error (.httpExc 400 ("Unsupported selector type: " ++ selectorTypeStr selector_type))
    match body with
    | .ok s => .ok s
    | .error e =>
      .error (500, "Error extracting content with " ++ selectorTypeStr selector_type
        ++ " selector: " ++ pyStrExc e)

/-- The body of `calculate_hash` (lines 166-185): the empty-content branch
re-assigns `content = ""` (a no-op) and the SHA-256 hex digest of the UTF-8
encoding is taken; the digest primitive is the parameter `sha256hex`. -/
def calculate_hash (sha256hex : String → String) (content : String) : String :=
  let content := if content = "" then "" else content
  sha256hex content

/-- The `WatchLog` rows `get_latest_watchlog` ranges over for a source:
`WHERE source_uuid = ? AND active`. -/
def source_entries (db : DB) (source_uuid : Nat) : List WatchLog :=
  db.watchlogs.filter (fun w => w.source_uuid == source_uuid && w.active)

/-- Fold computing the row with the greatest `created_at` (the first row of
`ORDER BY created_at DESC LIMIT 1`). -/
def latestAux (l : List WatchLog) : Option WatchLog :=
  l.foldl
    (fun acc w =>
      match acc with
      | none => some w
      | some b => if b.created_at < w.created_at then some w else some b)
    none

/-- The body of `get_latest_watchlog` (lines 187-216): most recent active
entry for the source by creation time. -/
def get_latest_watchlog (db : DB) (source_uuid : Nat) : Option WatchLog :=
  latestAux (source_entries db source_uuid)

/-- The body of `create_article` (lines 218-260): title is the first line of
the content truncated to 100 characters and stripped, with the literal
`"New content from source"` as fallback when that is empty; the description is
the content truncated to 200 characters and stripped, produced only when the
content is longer than 30 characters; `is_newsworthy` is the literal `True`. -/
def create_article (db : DB) (watchlog_uuid : Nat) (source_uri : String)
    (extracted_content : String) : DB × Article :=
  let content := if extracted_content = "" then "" else extracted_content
  let title0 := pyStrip (pyTake (firstLine content) 100)
  let title := if title0 = "" then "New content from source" else title0
  let description := if 30 < content.length then some (pyStrip (pyTake content 200)) else none
  let article : Article :=
    { watchlog_uuid := some watchlog_uuid
      title := title
      uri := source_uri
      description := description
      is_newsworthy := true }
  ({ db with articles := db.articles ++ [article] }, article)

/-- The body of `create_watchlog` (lines 262-287): a single committed insert;
the new row is active (SoftDeletionMixin default) and receives the next
`created_at` timestamp from the database. -/
def create_watchlog (db : DB) (source_uuid : Nat) (previous_uuid : Option Nat)
    (content_hash : String) : DB × WatchLog :=
  let w : WatchLog :=
    { uuid := db.nextUuid
      source_uuid := source_uuid
      previous_uuid := previous_uuid
      content_hash := some content_hash
      created_at := db.nextTime
      active := true }
  ({ db with
      watchlogs := db.watchlogs ++ [w]
      nextUuid := db.nextUuid + 1
      nextTime := db.nextTime + 1 }, w)

/-- The source lookup of `check_source` (lines 309-315):
`WHERE uuid = ? AND active`. -/
def find_active_source (db : DB) (source_uuid : Nat) : Option Source :=
  (db.sources.filter (fun s => s.uuid == source_uuid && s.active)).head?

/-- The body of `check_source` (lines 289-355).  `raw_content` stands for the
body returned by the `fetch_content` step for the source's URI (the network is
external state; a fetch failure aborts the cycle before any database write and
is settled separately with `fetch_content` below). -/
def check_source (sha256hex : String → String) (engine : Engine) (db : DB)
    (source_uuid : Nat) (raw_content : String) :
    Except (Nat × String) (DB × Option Article) :=
  match find_active_source db source_uuid with
  | none => .error (404, "Source not found")
  | some source =>
    let selector := source.watchable_selector.getD ""
    let selector_type := source.watchable_selector_type.getD (.known .css)
    match extract_content engine raw_content selector selector_type with
    | .error e => .error e
    | .ok extracted_content =>
      let content_hash := calculate_hash sha256hex extracted_content
      let latest := get_latest_watchlog db source_uuid
      let previous_hash := latest.bind (fun w => w.content_hash)
      let db1w := create_watchlog db source_uuid (latest.map (fun w => w.uuid)) content_hash
      if previous_hash = none ∨ previous_hash ≠ some content_hash then
        let db2a := create_article db1w.1 db1w.2.uuid source.uri extracted_content
        .ok (db2a.1, some db2a.2)
      else
        .ok (db1w.1, none)

/-- N check cycles for one source, driven by the list of fetched bodies;
stops at the first failing cycle. -/
def run_cycles (sha256hex : String → String) (engine : Engine) (source_uuid : Nat) :
    DB → List String → Except (Nat × String) DB
  | db, [] => .ok db
  | db, r :: rs =>
    match check_source sha256hex engine db source_uuid r with
    | .error e => .error e
    | .ok (db1, _) => run_cycles sha256hex engine source_uuid db1 rs

/-- The chain property on a list of watch-log rows in creation order: the
first row links to `p` and every later row links to its predecessor's uuid. -/
def chain_linked : Option Nat → List WatchLog → Bool
  | _, [] => true
  | p, w :: ws => (w.previous_uuid == p) && chain_linked (some w.uuid) ws

/-- The uuid a row appended after `es` must link to, when the chain so far
starts from `p`: the last row's uuid, or `p` when `es` is empty. -/
def lastLink (p : Option Nat) (es : List WatchLog) : Option Nat :=
  match es.getLast? with
  | none => p
  | some b => some b.uuid

end CheckSourceService

/-! ## Content fetch with retry (`app/check_source.py`, lines 42-105)

`_fetch_with_retry` performs `client.get(url, timeout=10.0)` followed by
`response.raise_for_status()`, under
`tenacity.retry(retry=retry_if_exception_type(httpx.HTTPError),
stop=stop_after_attempt(3), reraise=True)`.  The httpx exception hierarchy
makes `HTTPStatusError` — the exception `raise_for_status` raises for every
4xx and 5xx response — a subclass of `httpx.HTTPError`, exactly like the
transport-level errors (`ConnectError`, the timeout classes, ...). -/

namespace Fetch

/-- An exception raised inside one attempt of `_fetch_with_retry`: a
transport-level `httpx` error from `client.get`, or the `httpx.HTTPStatusError`
that `raise_for_status` raises for a 4xx/5xx status. -/
inductive HttpxError where
  | transport (msg : String)
  | statusError (status : Nat)
deriving DecidableEq, Repr

/-- Predicate of `retry_if_exception_type(httpx.HTTPError)`: every
`HttpxError` value is an instance of `httpx.HTTPError` (both `RequestError`
and `HTTPStatusError` subclass it). -/
def isHTTPError : HttpxError → Bool := fun _ => true

/-- Python `str(e)` for an httpx exception. -/
def httpxErrStr : HttpxError → String
  | .transport msg => msg
  | .statusError status => "HTTP status error " ++ toString status

/-- What one GET attempt against the server does: fail at transport level, or
deliver a response with a status code and a body. -/
inductive AttemptOutcome where
  | transportFail (msg : String)
  | response (status : Nat) (body : String)
deriving DecidableEq, Repr

/-- One attempt body of `_fetch_with_retry`: the GET, then
`raise_for_status()` (which raises for every status in 400-599). -/
def attemptResult : AttemptOutcome → Except HttpxError String
  | .transportFail msg => .error (.transport msg)
  | .response status body =>
    if 400 ≤ status then .error (.statusError status) else .ok body

/-- The tenacity loop of `_fetch_with_retry` over a script giving the outcome
of each attempt: `remaining` attempts are left; with one attempt left the
exception is re-raised (`reraise=True`); otherwise an exception matching the
retry predicate leads to a further attempt.  Returns the result together with
the number of attempts performed. -/
def fetchGo (script : Nat → AttemptOutcome) : Nat → Nat → Except HttpxError String × Nat
  | 0, attempt => (.error (.transport "unreachable"), attempt)
  | 1, attempt => (attemptResult (script attempt), attempt + 1)
  | remaining + 2, attempt =>
    match attemptResult (script attempt) with
    | .ok body => (.ok body, attempt + 1)
    | .error e =>
      if isHTTPError e then fetchGo script (remaining + 1) (attempt + 1)
      else (.error e, attempt + 1)

/-- `_fetch_with_retry` (lines 42-72): `stop_after_attempt(3)`. -/
def fetch_with_retry (script : Nat → AttemptOutcome) : Except HttpxError String × Nat :=
  fetchGo script 3 0

/-- The body of `fetch_content` (lines 74-105): on an `httpx.HTTPError`
escaping the retry loop, raises `HTTPException(500, "Error fetching source
content after multiple attempts: " + str(e))`.  The `url` argument does not
enter the detail string. -/
def fetch_content (url : String) (script : Nat → AttemptOutcome) :
    Except (Nat × String) String :=
  match (fetch_with_retry script).1 with
  | .ok body => .ok body
  | .error e =>
    .error (500, "Error fetching source content after multiple attempts: " ++ httpxErrStr e)

end Fetch

/-! ## Batch endpoint (`app/routers/check_source.py`, lines 47-84) -/

namespace Router

/-- What one `service.check_source(...)` call does for a given source uuid:
return an article, return `None`, or raise an exception whose `str` is `msg`. -/
inductive CheckCall where
  | ok : Option Article → CheckCall
  | exc : String → CheckCall
deriving DecidableEq, Repr

/-- The `ArticleOrError` response model (lines 17-23). -/
structure ArticleOrError where
  source_uuid : Nat
  article : Option Article
  error : Option String
  message : Option String
deriving DecidableEq, Repr

/-- One iteration of the batch loop (lines 60-71): the per-source
`try/except` catches any exception and records it as that source's error. -/
def processOne (check : Nat → CheckCall) (u : Nat) : ArticleOrError :=
  match check u with
  | .ok (some a) =>
    { source_uuid := u, article := some a, error := none, message := none }
  | .ok none =>
    { source_uuid := u, article := none, error := none
      message := some "No content changes detected" }
  | .exc msg =>
    { source_uuid := u, article := none, error := some msg, message := none }

/-- Python truthiness of `item.error` (`None` and `""` are falsy). -/
def truthyError (r : ArticleOrError) : Bool :=
  match r.error with
  | none => false
  | some s => s ≠ ""

/-- The body of `check_multiple_sources` (lines 47-84), parameterised by what
`service.check_source` does on each uuid: build one response entry per
requested source, then raise `HTTPException(500, "All source checks failed")`
when the number of (truthy) recorded errors equals the number of requested
sources. -/
def check_multiple_sources (check : Nat → CheckCall) (source_uuids : List Nat) :
    Except (Nat × String) (List ArticleOrError) :=
  let response := source_uuids.map (processOne check)
  let errors := (response.filter truthyError).map (fun r => r.error)
  if errors.length = source_uuids.length then
    .error (500, "All source checks failed")
  else
    .ok response

end Router

/-! ## The check-all-sources operation (`app/tasks.py` lines 8-29 and
`app/routers/check_source.py` lines 92-101)

Both call `await check_source_service.get_all_sources()` as their first
action after logging.  `CheckSourceService` is a plain class (no base class
other than `object`); its attribute lookup is modelled by the list of names
bound in the class body and in `__init__`. -/

namespace AllSources

/-- The attributes of a `CheckSourceService` instance: the two instance
attributes set in `__init__` and the methods defined in the class body of
`app/check_source.py`. -/
def checkSourceServiceAttrs : List String :=
  ["session", "logger", "_fetch_with_retry", "fetch_content", "extract_content",
   "calculate_hash", "get_latest_watchlog", "create_article", "create_watchlog",
   "check_source"]

/-- Result of running one of the two check-all-sources entry points: either it
completes (with the number of sources it checked) or a named `AttributeError`
escapes, with the number of sources checked before it was raised. -/
inductive RunResult where
  | completed (sourcesChecked : Nat)
  | attributeError (missingAttr : String) (sourcesCheckedBefore : Nat)
deriving DecidableEq, Repr

/-- The body of `tasks.check_all_sources` (lines 8-29): the first step
evaluates `check_source_service.get_all_sources()`, an attribute lookup on the
service; only then would the per-source loop run. -/
def tasks_check_all_sources (sources : List Nat) : RunResult :=
  if checkSourceServiceAttrs.contains "get_all_sources" then
    .completed sources.length
  else
    .attributeError "get_all_sources" 0

/-- The body of the `/check-source/batch/all` endpoint (router lines 92-101):
it likewise evaluates `service.get_all_sources()` before delegating to
`check_multiple_sources`. -/
def endpoint_check_all_sources (sources : List Nat) : RunResult :=
  if checkSourceServiceAttrs.contains "get_all_sources" then
    .completed sources.length
  else
    .attributeError "get_all_sources" 0

end AllSources

/-! ## DynamicScraper (`app/scraper.py`)

The browser is external state; a run is driven by a `PageTrace` oracle:

* `chunks k` is the outcome of the `k`-th call of `_extract_items_chunk`
  (lines 328-346): the list of item identity keys (`get_item_id`, the JSON
  serialisation of the extracted post) it yields, or `none` when the chunk
  extraction kept raising `ExtractionError` and its own tenacity policy
  (3 attempts, no `reraise`) ended in a `tenacity.RetryError`;
* `scrolls k` is the result of the `k`-th execution of the body of
  `_scroll_to_load_more` (lines 348-367) — that body catches every exception
  and returns `False`, so an attempt only ever reports success or failure.

`_scroll_to_load_more` is wrapped by `tenacity.retry(retry_if_result(False),
stop_after_attempt(2))` without `reraise`, so two failed attempts raise a
`tenacity.RetryError`; it can never return `False` to its caller.

The `while` loop of `_collect_items` (lines 414-419) catches exactly
`tenacity.RetryError` and breaks, keeping the items accumulated so far (the
`items` list is mutated in place by the closure). -/

namespace Scraper

/-- Scraper configuration (`ScraperConfig` / `DEFAULT_SETTINGS`,
lines 15-42). -/
structure ScraperConfig where
  MAX_RETRIES : Nat
  SCROLL_TIMEOUT_MS : Nat
  LOAD_TIMEOUT_MS : Nat
  DEFAULT_MAX_POSTS : Nat
deriving DecidableEq, Repr

/-- The module's `DEFAULT_SETTINGS` dictionary. -/
def DEFAULT_SETTINGS : ScraperConfig :=
  { MAX_RETRIES := 3, SCROLL_TIMEOUT_MS := 500, LOAD_TIMEOUT_MS := 500
    DEFAULT_MAX_POSTS := 50 }

/-- Oracle describing what the page yields over the course of one run. -/
structure PageTrace where
  chunks : Nat → Option (List String)
  scrolls : Nat → Bool

/-- State threaded through the collection loop: the accumulated unique items,
the seen-set, and how many chunk extractions and scroll attempts have been
performed. -/
structure CollectState where
  items : List String
  seen : List String
  chunkCalls : Nat
  scrollAttempts : Nat
deriving DecidableEq, Repr

/-- The dedup-merge of `add_new_items` (lines 397-401): append each extracted
item whose identity key is unseen. -/
def mergeChunk (st : CollectState) (chunk : List String) : CollectState :=
  chunk.foldl
    (fun acc item =>
      if item ∈ acc.seen then acc
      else { acc with items := acc.items ++ [item], seen := acc.seen ++ [item] })
    st

/-- The retry loop of `_scroll_to_load_more`: given the index of the next
scroll attempt, returns `Except.ok` on a successful attempt (the function can
only return `True`), or `Except.error` for the `tenacity.RetryError` raised
after 2 failed attempts; paired with the next attempt index. -/
def scroll_to_load_more (scrolls : Nat → Bool) (s : Nat) : Except Unit Bool × Nat :=
  if scrolls s then (.ok true, s + 1)
  else if scrolls (s + 1) then (.ok true, s + 2)
  else (.error (), s + 2)

/-- One attempt of the inner `add_new_items` closure (lines 394-412):
extract a chunk, merge unseen items, report `False` on no progress, otherwise
scroll (a scroll-exhaustion `RetryError` propagates out of the closure; a
successful scroll — the only other possibility — makes the attempt return
`True`).  `Except.error` marks a propagating `tenacity.RetryError`. -/
def addNewItemsOnce (tr : PageTrace) (st : CollectState) :
    Except Unit Bool × CollectState :=
  match tr.chunks st.chunkCalls with
  | none => (.error (), { st with chunkCalls := st.chunkCalls + 1 })
  | some chunk =>
    let st1 := mergeChunk { st with chunkCalls := st.chunkCalls + 1 } chunk
    let newItems := st1.items.length - st.items.length
    if newItems = 0 then (.ok false, st1)
    else
      match scroll_to_load_more tr.scrolls st1.scrollAttempts with
      | (.ok _, s1) => (.ok true, { st1 with scrollAttempts := s1 })
      | (.error _, s1) => (.error (), { st1 with scrollAttempts := s1 })

/-- The tenacity wrapper on `add_new_items` (lines 388-393):
`retry_if_result(False)` with `stop_after_attempt(max_retries)`, no `reraise`;
an exception from the body propagates at once, and exhaustion raises a
`tenacity.RetryError`.  The first component is `true` when the call returned
normally and `false` when a `RetryError` reaches the `while` loop. -/
def addNewItemsRetry (tr : PageTrace) : Nat → CollectState → Bool × CollectState
  | 0, st => (false, st)
  | remaining + 1, st =>
    match addNewItemsOnce tr st with
    | (.error _, st1) => (false, st1)
    | (.ok true, st1) => (true, st1)
    | (.ok false, st1) =>
      if remaining = 0 then (false, st1) else addNewItemsRetry tr remaining st1

/-- The `while len(items) < max_items` loop (lines 414-419), with fuel: each
continuing iteration added at least one unique item, so `max_items + 1` fuel
is never exhausted. -/
def collectLoop (tr : PageTrace) (maxRetries maxItems : Nat) :
    Nat → CollectState → CollectState
  | 0, st => st
  | fuel + 1, st =>
    if st.items.length < maxItems then
      match addNewItemsRetry tr maxRetries st with
      | (true, st1) => collectLoop tr maxRetries maxItems fuel st1
      | (false, st1) => st1
    else st

/-- The body of `_collect_items` (lines 383-421): run the loop from the empty
state and return `items[:max_items]`, together with the final loop state. -/
def collect_items (tr : PageTrace) (maxRetries maxItems : Nat) :
    List String × CollectState :=
  let st := collectLoop tr maxRetries maxItems (maxItems + 1)
    { items := [], seen := [], chunkCalls := 0, scrollAttempts := 0 }
  (st.items.take maxItems, st)

/-- Exceptions that can escape `extract_content`. -/
inductive ScrapeExc where
  | runtimeError
  | navRetryError
deriving DecidableEq, Repr

/-- The retry loop of `_navigate_to_url` (lines 369-381):
`retry_if_exception_type(NavigationError)`, `stop_after_attempt(3)`, no
`reraise`; `nav k` tells whether the `k`-th `page.goto` succeeds. -/
def navigate (nav : Nat → Bool) : Except Unit Nat :=
  if nav 0 then .ok 1
  else if nav 1 then .ok 2
  else if nav 2 then .ok 3
  else .error ()

/-- The body of `DynamicScraper.extract_content` (lines 423-452): default the
item cap to `DEFAULT_MAX_POSTS`, fail fast when the browser context is not
initialized, navigate (with retries), then collect. -/
def extract_content (cfg : ScraperConfig) (maxRetries : Option Nat)
    (contextInitialized : Bool) (nav : Nat → Bool) (tr : PageTrace)
    (max_items : Option Nat) : Except ScrapeExc (List String) :=
  let maxItems := max_items.getD cfg.DEFAULT_MAX_POSTS
  let maxr := maxRetries.getD cfg.MAX_RETRIES
  if !contextInitialized then .error .runtimeError
  else
    match navigate nav with
    | .error _ => .error .navRetryError
    | .ok _ => .ok (collect_items tr maxr maxItems).1

end Scraper

/-! ## Concrete instances used by witnesses and counterexamples -/

/-- A concrete stand-in for the SHA-256 hex digest. -/
def wSha : String → String := fun s => "sha:" ++ s

/-- A concrete selector engine: every known kind extracts the full content. -/
def wEngine : CheckSourceService.Engine := fun _ _ content => .ok content

/-- An active source with no selector configured (pass-through extraction). -/
def wSrc : Source :=
  { uuid := 1, uri := "http://example.com", active := true
    watchable_selector := none, watchable_selector_type := none }

/-- A database holding only `wSrc`, with no watch-log history. -/
def wDb : DB :=
  { sources := [wSrc], watchlogs := [], articles := [], nextUuid := 10, nextTime := 100 }

/-- Extracted content whose first line is empty and whose length exceeds 30. -/
def blankTitleContent : String :=
  "\nBreaking body text that is definitely longer than thirty characters"

/-- The article produced by a full `check_source` cycle on
`blankTitleContent`. -/
def blankTitleArticle : Option Article :=
  match CheckSourceService.check_source wSha wEngine wDb 1 blankTitleContent with
  | .ok (_, a) => a
  | .error _ => none

/-- A fetch script whose first attempt is answered with a 404 and whose second
attempt succeeds. -/
def fetchScript404 : Nat → Fetch.AttemptOutcome := fun k =>
  if k = 0 then .response 404 "not found body" else .response 200 "ok"

/-- A fetch script on which every attempt fails at transport level. -/
def fetchScriptDown : Nat → Fetch.AttemptOutcome := fun _ =>
  .transportFail "connection refused"

/-- A batch oracle on which every source check raises. -/
def allFailCheck : Nat → Router.CheckCall := fun _ => .exc "boom"

/-- A batch oracle on which source 1 raises and every other source reports no
change. -/
def oneFailCheck : Nat → Router.CheckCall := fun u =>
  if u = 1 then .exc "boom" else .ok none

/-- A page trace: every chunk shows the same three items, every scroll attempt
fails. -/
def failingScrollTrace : Scraper.PageTrace :=
  { chunks := fun _ => some ["a", "b", "c"], scrolls := fun _ => false }

/-- The database after one `check_source` cycle on `wDb` with body
`"hello"`. -/
def oneCycleDb : DB :=
  { sources := [wSrc]
    watchlogs := [⟨10, 1, none, some "sha:hello", 100, true⟩]
    articles := [⟨some 10, "hello", "http://example.com", none, true⟩]
    nextUuid := 11, nextTime := 101 }

/-- The article created in that cycle. -/
def oneCycleArticle : Article :=
  ⟨some 10, "hello", "http://example.com", none, true⟩

/-- The database after three `check_source` cycles on `wDb` with bodies
`"hello"`, `"hello"`, `"world"`. -/
def chainDbN : DB :=
  { sources := [wSrc]
    watchlogs :=
      [⟨10, 1, none, some "sha:hello", 100, true⟩,
       ⟨11, 1, some 10, some "sha:hello", 101, true⟩,
       ⟨12, 1, some 11, some "sha:world", 102, true⟩]
    articles :=
      [⟨some 10, "hello", "http://example.com", none, true⟩,
       ⟨some 12, "world", "http://example.com", none, true⟩]
    nextUuid := 13, nextTime := 103 }

/-- The article created from `blankTitleContent`: its title is the fallback
literal, not the (empty) trimmed first line. -/
def blankTitleArt : Article :=
  ⟨some 10, "New content from source", "http://example.com",
    some "Breaking body text that is definitely longer than thirty characters", true⟩

/-- The database after one `check_source` cycle on `wDb` with body
`blankTitleContent`. -/
def blankTitleDb : DB :=
  { sources := [wSrc]
    watchlogs := [⟨10, 1, none, some ("sha:" ++ blankTitleContent), 100, true⟩]
    articles := [blankTitleArt]
    nextUuid := 11, nextTime := 101 }

/-! ## Theorems -/

/-- C10: calling the batch check endpoint with an empty list of source UUIDs
raises the hard failure `HTTPException(500, "All source checks failed")` even
though no source was checked and none failed, because the error count (zero)
equals the requested-source count (zero). -/
theorem batch_check_empty_hard_failure :
    ∀ check : Nat → Router.CheckCall,
      Router.check_multiple_sources check [] =
        .error (500, "All source checks failed") :=
  fun _ => rfl

/-- C4: `CheckSourceService` defines no attribute `get_all_sources`, so both
the scheduled task `tasks.check_all_sources` and the `/check-source/batch/all`
endpoint raise an `AttributeError` on their first step, before any source is
checked (the recorded count of checked sources is 0), whatever sources
exist. -/
theorem missing_get_all_sources_attribute_error :
    AllSources.checkSourceServiceAttrs.contains "get_all_sources" = false ∧
    ∀ sources : List Nat,
      AllSources.tasks_check_all_sources sources =
        .attributeError "get_all_sources" 0 ∧
      AllSources.endpoint_check_all_sources sources =
        .attributeError "get_all_sources" 0 :=
  ⟨by decide, fun _ => ⟨rfl, rfl⟩⟩

/-- C6 (evaluation at the failing input, general over the inputs reaching the
dispatch): for non-empty content and a non-empty selector, a selector kind
outside the enum makes `extract_content` surface
`HTTPException(500, "Error extracting content with ... selector: 400:
Unsupported selector type: ...")` — the explicit 400 `HTTPException` is caught
by the `except Exception` handler and wrapped into the 500, so no 400 error is
ever surfaced, contrary to the claim and to the intent of the explicit
`raise`. -/
theorem extract_content_unknown_kind_wrapped_to_500 :
    ∀ (engine : CheckSourceService.Engine) (content selector tag : String),
      content ≠ "" → selector ≠ "" →
      CheckSourceService.extract_content engine content selector (.other tag) =
        .error (500, "Error extracting content with " ++ tag ++ " selector: "
          ++ CheckSourceService.pyStrExc
              (.httpExc 400 ("Unsupported selector type: " ++ tag))) ∧
      ∀ detail,
        CheckSourceService.extract_content engine content selector (.other tag) ≠
          .error (400, detail) := by
  intro engine content selector tag hc hs
  have heq : CheckSourceService.extract_content engine content selector (.other tag) =
      .error (500, "Error extracting content with " ++ tag ++ " selector: "
        ++ CheckSourceService.pyStrExc
            (.httpExc 400 ("Unsupported selector type: " ++ tag))) := by
    simp [CheckSourceService.extract_content, hc, hs, selectorTypeStr]
  refine ⟨heq, ?_⟩
  intro detail hcontra
  rw [heq] at hcontra
  simp at hcontra

/-- Witness for the C6 theorem at concrete inputs. -/
theorem extract_content_unknown_kind_wrapped_to_500_witness :
    CheckSourceService.extract_content wEngine "<p>x</p>" "p" (.other "json") =
      .error (500, "Error extracting content with " ++ "json" ++ " selector: "
        ++ CheckSourceService.pyStrExc
            (.httpExc 400 ("Unsupported selector type: " ++ "json"))) :=
  (extract_content_unknown_kind_wrapped_to_500 wEngine "<p>x</p>" "p" "json"
    (by decide) (by decide)).1

/-- C5 counterexample: on a script whose first attempt is answered with a 404
— a 4xx application error, raised by `raise_for_status` as
`httpx.HTTPStatusError`, which subclasses the retried `httpx.HTTPError` — the
fetch performs a second attempt and returns its body: the 4xx answer was
retried, refuting the claim that the fetch "does not retry when the server
answers with a 4xx application error". -/
theorem fetch_retry_after_4xx_counterexample :
    Fetch.attemptResult (fetchScript404 0) = .error (.statusError 404) ∧
    Fetch.fetch_with_retry fetchScript404 = (.ok "ok", 2) :=
  ⟨rfl, rfl⟩

/-- C5 as amended: the content fetch retries, up to 3 attempts with
exponential backoff, on every `httpx.HTTPError` — transport-level errors and
the `HTTPStatusError` of any 4xx/5xx response alike — and on final failure
raises `HTTPException(500, ...)` whose detail carries the stringified
cause. -/
theorem fetch_retries_every_httpx_error :
    ∀ script : Nat → Fetch.AttemptOutcome,
      (Fetch.fetch_with_retry script).2 ≤ 3 ∧
      (∀ b, Fetch.attemptResult (script 0) = .ok b →
        Fetch.fetch_with_retry script = (.ok b, 1)) ∧
      (∀ e₀ b, Fetch.attemptResult (script 0) = .error e₀ →
        Fetch.attemptResult (script 1) = .ok b →
        Fetch.fetch_with_retry script = (.ok b, 2)) ∧
      (∀ e₀ e₁, Fetch.attemptResult (script 0) = .error e₀ →
        Fetch.attemptResult (script 1) = .error e₁ →
        Fetch.fetch_with_retry script = (Fetch.attemptResult (script 2), 3)) ∧
      (∀ e, (Fetch.fetch_with_retry script).1 = .error e →
        ∀ url, Fetch.fetch_content url script =
          .error (500, "Error fetching source content after multiple attempts: "
            ++ Fetch.httpxErrStr e)) := by
  intro script
  refine ⟨?_, ?_, ?_, ?_, ?_⟩
  · unfold Fetch.fetch_with_retry
    cases h0 : Fetch.attemptResult (script 0) with
    | ok b => simp [Fetch.fetchGo, h0]
    | error e =>
      cases h1 : Fetch.attemptResult (script 1) with
      | ok b => simp [Fetch.fetchGo, h0, h1, Fetch.isHTTPError]
      | error e1 => simp [Fetch.fetchGo, h0, h1, Fetch.isHTTPError]
  · intro b h0
    simp [Fetch.fetch_with_retry, Fetch.fetchGo, h0]
  · intro e0 b h0 h1
    simp [Fetch.fetch_with_retry, Fetch.fetchGo, h0, h1, Fetch.isHTTPError]
  · intro e0 e1 h0 h1
    simp [Fetch.fetch_with_retry, Fetch.fetchGo, h0, h1, Fetch.isHTTPError]
  · intro e he url
    unfold Fetch.fetch_content
    rw [he]

/-- Witness for the amended C5 theorem: all three attempts fail at transport
level, and the fetch surfaces the 500 with the cause. -/
theorem fetch_retries_every_httpx_error_witness :
    Fetch.fetch_content "http://example.com" fetchScriptDown =
      .error (500, "Error fetching source content after multiple attempts: "
        ++ Fetch.httpxErrStr (.transport "connection refused")) :=
  (fetch_retries_every_httpx_error fetchScriptDown).2.2.2.2
    (.transport "connection refused") rfl "http://example.com"

/-- If a filter keeps as many elements as the list has, every element
satisfies the predicate. -/
theorem all_of_length_filter_eq {α : Type} (p : α → Bool) :
    ∀ l : List α, (l.filter p).length = l.length → ∀ x ∈ l, p x = true := by
  intro l
  induction l with
  | nil => intro _ x hx; cases hx
  | cons a as ih =>
    intro h x hx
    by_cases hp : p a
    · rcases List.mem_cons.mp hx with hx | hx
      · exact hx ▸ hp
      · exact ih (by simpa [List.filter_cons, hp] using h) x hx
    · exfalso
      have hle := List.length_filter_le p as
      simp [List.filter_cons, hp] at h
      omega

/-- C3: the batch check yields one outcome per requested source, each
determined solely by that source's own check (an exception on one source is
caught and recorded as its error entry and does not affect the others), and
the hard failure `HTTPException(500, "All source checks failed")` is raised
only when every source's check raised (with a non-empty message); whenever at
least one source did not raise, the full per-source outcome list is
returned. -/
theorem batch_partial_failure_isolation :
    ∀ (check : Nat → Router.CheckCall) (uuids : List Nat),
      (∀ resp, Router.check_multiple_sources check uuids = .ok resp →
        resp = uuids.map (Router.processOne check)) ∧
      (∀ err, Router.check_multiple_sources check uuids = .error err →
        err = (500, "All source checks failed") ∧
        ∀ u ∈ uuids, ∃ msg, check u = .exc msg ∧ msg ≠ "") ∧
      ((∃ u ∈ uuids, ∀ msg, check u ≠ .exc msg) →
        Router.check_multiple_sources check uuids =
          .ok (uuids.map (Router.processOne check))) := by
  intro check uuids
  have hdef : Router.check_multiple_sources check uuids =
      if (((uuids.map (Router.processOne check)).filter Router.truthyError).map
            (fun r => r.error)).length = uuids.length then
        .error (500, "All source checks failed")
      else
        .ok (uuids.map (Router.processOne check)) := rfl
  have htruthy : ∀ u, Router.truthyError (Router.processOne check u) = true →
      ∃ msg, check u = .exc msg ∧ msg ≠ "" := by
    intro u ht
    cases hcu : check u with
    | ok a =>
      cases a <;> simp [Router.processOne, hcu, Router.truthyError] at ht
    | exc m =>
      refine ⟨m, rfl, ?_⟩
      simp [Router.processOne, hcu, Router.truthyError] at ht
      exact ht
  rw [hdef]
  split_ifs with hc
  · have h1 : ((uuids.map (Router.processOne check)).filter
        Router.truthyError).length = uuids.length := by
      simpa using hc
    have hflen : ((uuids.map (Router.processOne check)).filter
        Router.truthyError).length = (uuids.map (Router.processOne check)).length := by
      rw [h1, List.length_map]
    have hall := all_of_length_filter_eq Router.truthyError _ hflen
    refine ⟨?_, ?_, ?_⟩
    · intro resp h
      cases h
    · intro err h
      refine ⟨?_, ?_⟩
      · cases h
        rfl
      · intro u hu
        exact htruthy u (hall _ (List.mem_map_of_mem _ hu))
    · rintro ⟨u, hu, hne⟩
      exfalso
      obtain ⟨msg, hmsg, -⟩ := htruthy u (hall _ (List.mem_map_of_mem _ hu))
      exact hne msg hmsg
  · refine ⟨?_, ?_, ?_⟩
    · intro resp h
      cases h
      rfl
    · intro err h
      cases h
    · intro _
      rfl

/-- Witness for the C3 theorem: with every check raising, the hard failure's
hypothesis is discharged and every source is reported failed; with one source
succeeding, the full outcome list is returned. -/
theorem batch_partial_failure_isolation_witness :
    (∀ u ∈ [1, 2], ∃ msg, allFailCheck u = .exc msg ∧ msg ≠ "") ∧
    Router.check_multiple_sources oneFailCheck [1, 2] =
      .ok ([1, 2].map (Router.processOne oneFailCheck)) := by
  constructor
  · exact ((batch_partial_failure_isolation allFailCheck [1, 2]).2.1
      (500, "All source checks failed") rfl).2
  · refine (batch_partial_failure_isolation oneFailCheck [1, 2]).2.2 ⟨2, by decide, ?_⟩
    intro msg h
    simp [oneFailCheck] at h

/-- Python `x or ""` on a string is the string itself. -/
theorem if_empty_self (s : String) : (if s = "" then "" else s) = s := by
  split_ifs with h
  · exact h.symm
  · rfl

/-- Full characterisation of a successful `check_source` cycle, given the
source row it found and the content the extraction step produced: the database
gains exactly the one chain-linked watch-log row, and the returned article is
determined by the hash comparison. -/
theorem check_source_ok_spec :
    ∀ (sha : String → String) (engine : CheckSourceService.Engine) (db : DB)
      (u : Nat) (raw : String) (db1 : DB) (art : Option Article)
      (src : Source) (ext : String),
      CheckSourceService.find_active_source db u = some src →
      CheckSourceService.extract_content engine raw (src.watchable_selector.getD "")
        (src.watchable_selector_type.getD (.known .css)) = .ok ext →
      CheckSourceService.check_source sha engine db u raw = .ok (db1, art) →
      (db1.watchlogs = db.watchlogs ++
          [{ uuid := db.nextUuid, source_uuid := u
             previous_uuid := (CheckSourceService.get_latest_watchlog db u).map (fun w => w.uuid)
             content_hash := some (CheckSourceService.calculate_hash sha ext)
             created_at := db.nextTime, active := true }] ∧
        db1.nextTime = db.nextTime + 1 ∧ db1.nextUuid = db.nextUuid + 1) ∧
      (if ((CheckSourceService.get_latest_watchlog db u).bind (fun w => w.content_hash)) = none ∨
          ((CheckSourceService.get_latest_watchlog db u).bind (fun w => w.content_hash)) ≠
            some (CheckSourceService.calculate_hash sha ext) then
        art = some
          { watchlog_uuid := some db.nextUuid
            title := (if pyStrip (pyTake (firstLine ext) 100) = "" then
                "New content from source" else pyStrip (pyTake (firstLine ext) 100))
            uri := src.uri
            description := (if 30 < ext.length then some (pyStrip (pyTake ext 200)) else none)
            is_newsworthy := true }
      else art = none) := by
  intro sha engine db u raw db1 art src ext hsrc hext h
  unfold CheckSourceService.check_source at h
  rw [hsrc] at h
  simp only [hext] at h
  by_cases hcond : ((CheckSourceService.get_latest_watchlog db u).bind (fun w => w.content_hash)) = none ∨
      ((CheckSourceService.get_latest_watchlog db u).bind (fun w => w.content_hash)) ≠
        some (CheckSourceService.calculate_hash sha ext)
  · rw [if_pos hcond] at h
    rw [if_pos hcond]
    simp only [CheckSourceService.create_watchlog, CheckSourceService.create_article] at h
    have h' := Except.ok.inj h
    have hdb : db1 = _ := (congrArg Prod.fst h').symm
    have hart : art = _ := (congrArg Prod.snd h').symm
    refine ⟨⟨?_, ?_, ?_⟩, ?_⟩
    · rw [hdb]
    · rw [hdb]
    · rw [hdb]
    · rw [hart]
      simp only [if_empty_self, Option.some.injEq]
  · rw [if_neg hcond] at h
    rw [if_neg hcond]
    simp only [CheckSourceService.create_watchlog] at h
    have h' := Except.ok.inj h
    have hdb : db1 = _ := (congrArg Prod.fst h').symm
    have hart : art = _ := (congrArg Prod.snd h').symm
    refine ⟨⟨?_, ?_, ?_⟩, ?_⟩
    · rw [hdb]
    · rw [hdb]
    · rw [hdb]
    · rw [hart]

/-- C1: a completed check cycle of an active source creates an Article exactly
when the newly computed content hash differs from the content hash carried by
the latest previously-existing active watch-log entry (a null stored hash
always counts as different), or when no previous entry exists; in particular
the very first check creates an Article, and on an unchanged hash no Article
is created and `check_source` returns `None`. -/
theorem check_source_article_iff_changed :
    ∀ (sha : String → String) (engine : CheckSourceService.Engine) (db : DB)
      (u : Nat) (raw : String) (db1 : DB) (art : Option Article)
      (src : Source) (ext : String),
      CheckSourceService.find_active_source db u = some src →
      CheckSourceService.extract_content engine raw (src.watchable_selector.getD "")
        (src.watchable_selector_type.getD (.known .css)) = .ok ext →
      CheckSourceService.check_source sha engine db u raw = .ok (db1, art) →
      (CheckSourceService.get_latest_watchlog db u = none → art.isSome = true) ∧
      (∀ w, CheckSourceService.get_latest_watchlog db u = some w →
        (art.isSome = true ↔ w.content_hash ≠ some (CheckSourceService.calculate_hash sha ext))) ∧
      (∀ w, CheckSourceService.get_latest_watchlog db u = some w →
        w.content_hash = some (CheckSourceService.calculate_hash sha ext) →
        art = none) := by
  intro sha engine db u raw db1 art src ext hsrc hext h
  have hspec := (check_source_ok_spec sha engine db u raw db1 art src ext hsrc hext h).2
  refine ⟨?_, ?_, ?_⟩
  · intro hl
    rw [hl] at hspec
    have hbn : ((none : Option WatchLog).bind fun w => w.content_hash) = none := rfl
    rw [if_pos (Or.inl hbn)] at hspec
    rw [hspec]
    rfl
  · intro w hw
    rw [hw] at hspec
    simp only [Option.some_bind] at hspec
    by_cases hch : w.content_hash = some (CheckSourceService.calculate_hash sha ext)
    · have hcond : ¬ (w.content_hash = none ∨
          w.content_hash ≠ some (CheckSourceService.calculate_hash sha ext)) := by
        simp [hch]
      rw [if_neg hcond] at hspec
      rw [hspec]
      simp [hch]
    · have hcond : w.content_hash = none ∨
          w.content_hash ≠ some (CheckSourceService.calculate_hash sha ext) := Or.inr hch
      rw [if_pos hcond] at hspec
      rw [hspec]
      simp [hch]
  · intro w hw hch
    rw [hw] at hspec
    simp only [Option.some_bind] at hspec
    have hcond : ¬ (w.content_hash = none ∨
        w.content_hash ≠ some (CheckSourceService.calculate_hash sha ext)) := by
      simp [hch]
    rw [if_neg hcond] at hspec
    exact hspec

/-- Witness for the C1 theorem: the very first check of `wSrc` (no previous
watch-log entry) creates an article. -/
theorem check_source_article_iff_changed_witness :
    ((some oneCycleArticle : Option Article)).isSome = true :=
  (check_source_article_iff_changed wSha wEngine wDb 1 "hello" oneCycleDb
    (some oneCycleArticle) wSrc "hello" rfl rfl rfl).1 rfl

/-- The fold of `latestAux` only ever returns its accumulator or a member of
the list. -/
theorem latest_fold_mem :
    ∀ (l : List WatchLog) (acc : Option WatchLog) (b : WatchLog),
      l.foldl (fun acc w =>
        match acc with
        | none => some w
        | some b => if b.created_at < w.created_at then some w else some b) acc = some b →
      acc = some b ∨ b ∈ l := by
  intro l
  induction l with
  | nil => intro acc b h; exact Or.inl h
  | cons x xs ih =>
    intro acc b h
    rcases ih _ b h with hacc | hmem
    · cases acc with
      | none =>
        simp only at hacc
        exact Or.inr (List.mem_cons.mpr (Or.inl (Option.some.inj hacc).symm))
      | some a =>
        simp only at hacc
        split_ifs at hacc with hlt
        · exact Or.inr (List.mem_cons.mpr (Or.inl (Option.some.inj hacc).symm))
        · exact Or.inl hacc
    · exact Or.inr (List.mem_cons_of_mem _ hmem)

/-- Appending a row newer than all existing rows makes it the latest. -/
theorem latestAux_concat :
    ∀ (l : List WatchLog) (e : WatchLog),
      (∀ x ∈ l, x.created_at < e.created_at) →
      CheckSourceService.latestAux (l ++ [e]) = some e := by
  intro l e hlt
  unfold CheckSourceService.latestAux
  rw [List.foldl_append]
  cases hacc : l.foldl (fun acc w =>
      match acc with
      | none => some w
      | some b => if b.created_at < w.created_at then some w else some b) none with
  | none => simp
  | some b =>
    have hb : b ∈ l := by
      rcases latest_fold_mem l none b hacc with h | h
      · cases h
      · exact h
    simp [hlt b hb]

/-- With no chain start, the link target is the last row's uuid. -/
theorem lastLink_none_eq_map :
    ∀ es : List WatchLog,
      CheckSourceService.lastLink none es = es.getLast?.map (fun w => w.uuid) := by
  intro es
  cases h : es.getLast? <;> simp [CheckSourceService.lastLink, h]

/-- A chain stays linked when a row linking to its last element is
appended. -/
theorem chain_linked_concat :
    ∀ (es : List WatchLog) (p : Option Nat) (w : WatchLog),
      CheckSourceService.chain_linked p es = true →
      w.previous_uuid = CheckSourceService.lastLink p es →
      CheckSourceService.chain_linked p (es ++ [w]) = true := by
  intro es
  induction es with
  | nil =>
    intro p w _ hlink
    simp only [CheckSourceService.lastLink, List.getLast?_nil] at hlink
    simp [CheckSourceService.chain_linked, hlink]
  | cons x xs ih =>
    intro p w hchain hlink
    simp only [CheckSourceService.chain_linked, Bool.and_eq_true] at hchain
    simp only [List.cons_append, CheckSourceService.chain_linked, Bool.and_eq_true]
    refine ⟨hchain.1, ih _ w hchain.2 ?_⟩
    rw [hlink]
    cases xs with
    | nil => simp [CheckSourceService.lastLink]
    | cons y ys =>
      cases hg : (y :: ys).getLast? with
      | none =>
        exfalso
        have h2 : (y :: ys).getLast?.isSome = true := List.getLast?_isSome.mpr (by simp)
        rw [hg] at h2
        cases h2
      | some z => simp [CheckSourceService.lastLink, List.getLast?_cons_cons, hg]

/-- Every successful cycle, whatever the source's configuration and whatever
was fetched, appends exactly the one chain-linked row and advances the
timestamp counter. -/
theorem check_source_ok_dbstep :
    ∀ (sha : String → String) (engine : CheckSourceService.Engine) (db : DB)
      (u : Nat) (raw : String) (db1 : DB) (art : Option Article),
      CheckSourceService.check_source sha engine db u raw = .ok (db1, art) →
      ∃ hsh : String,
        db1.watchlogs = db.watchlogs ++
          [{ uuid := db.nextUuid, source_uuid := u
             previous_uuid := (CheckSourceService.get_latest_watchlog db u).map (fun w => w.uuid)
             content_hash := some hsh, created_at := db.nextTime, active := true }] ∧
        db1.nextTime = db.nextTime + 1 := by
  intro sha engine db u raw db1 art h
  unfold CheckSourceService.check_source at h
  cases hs : CheckSourceService.find_active_source db u with
  | none => rw [hs] at h; cases h
  | some src =>
    rw [hs] at h
    cases he : CheckSourceService.extract_content engine raw (src.watchable_selector.getD "")
        (src.watchable_selector_type.getD (.known .css)) with
    | error e => simp [he] at h
    | ok ext =>
      simp only [he] at h
      simp only [CheckSourceService.create_watchlog, CheckSourceService.create_article] at h
      refine ⟨CheckSourceService.calculate_hash sha ext, ?_⟩
      split_ifs at h with hc <;>
      · have h' := Except.ok.inj h
        have hdb : db1 = _ := (congrArg Prod.fst h').symm
        exact ⟨by rw [hdb], by rw [hdb]⟩

/-- Invariant-carrying induction over `run_cycles`: from a state whose active
entries for the source form a linked chain whose last element is the latest
entry, N further successful cycles extend the chain by N rows and keep it
linked. -/
theorem run_cycles_chain_inv :
    ∀ (rs : List String) (sha : String → String) (engine : CheckSourceService.Engine)
      (u : Nat) (db dbN : DB),
      CheckSourceService.run_cycles sha engine u db rs = .ok dbN →
      (∀ x ∈ db.watchlogs, x.created_at < db.nextTime) →
      CheckSourceService.get_latest_watchlog db u = (CheckSourceService.source_entries db u).getLast? →
      CheckSourceService.chain_linked none (CheckSourceService.source_entries db u) = true →
      (CheckSourceService.source_entries dbN u).length =
        (CheckSourceService.source_entries db u).length + rs.length ∧
      CheckSourceService.chain_linked none (CheckSourceService.source_entries dbN u) = true := by
  intro rs
  induction rs with
  | nil =>
    intro sha engine u db dbN h hinv hl hchain
    cases h
    exact ⟨rfl, hchain⟩
  | cons r rs ih =>
    intro sha engine u db dbN h hinv hl hchain
    unfold CheckSourceService.run_cycles at h
    cases hc : CheckSourceService.check_source sha engine db u r with
    | error e => rw [hc] at h; cases h
    | ok pr =>
      rw [hc] at h
      obtain ⟨db1, art⟩ := pr
      obtain ⟨hsh, hwl, hnt⟩ := check_source_ok_dbstep sha engine db u r db1 art hc
      set w : WatchLog :=
        { uuid := db.nextUuid, source_uuid := u
          previous_uuid := (CheckSourceService.get_latest_watchlog db u).map (fun x => x.uuid)
          content_hash := some hsh, created_at := db.nextTime, active := true } with hwdef
      have hentries : CheckSourceService.source_entries db1 u =
          CheckSourceService.source_entries db u ++ [w] := by
        unfold CheckSourceService.source_entries
        rw [hwl, List.filter_append]
        simp [hwdef]
      have hmemlt : ∀ x ∈ CheckSourceService.source_entries db u, x.created_at < w.created_at := by
        intro x hx
        have hxm : x ∈ db.watchlogs := (List.mem_filter.mp hx).1
        exact hinv x hxm
      have hinv1 : ∀ x ∈ db1.watchlogs, x.created_at < db1.nextTime := by
        intro x hx
        rw [hwl] at hx
        rw [hnt]
        rcases List.mem_append.mp hx with hx | hx
        · exact Nat.lt_succ_of_lt (hinv x hx)
        · rcases List.mem_singleton.mp hx with rfl
          exact Nat.lt_succ_self _
      have hl1 : CheckSourceService.get_latest_watchlog db1 u =
          (CheckSourceService.source_entries db1 u).getLast? := by
        unfold CheckSourceService.get_latest_watchlog
        rw [hentries, List.getLast?_concat]
        exact latestAux_concat _ w hmemlt
      have hchain1 : CheckSourceService.chain_linked none
          (CheckSourceService.source_entries db1 u) = true := by
        rw [hentries]
        refine chain_linked_concat _ none w hchain ?_
        rw [lastLink_none_eq_map, hwdef]
        simp [hl]
      have hres := ih sha engine u db1 dbN h hinv1 hl1 hchain1
      refine ⟨?_, hres.2⟩
      rw [hres.1, hentries]
      simp [List.length_append]
      omega

/-- C2: every completed check cycle appends exactly one new watch-log entry,
whose `previous_uuid` is the uuid of the most recent active entry (or null
when none exists) and whose `content_hash` is the newly computed hash,
regardless of whether the content changed; and starting from a database with
no active entries for the source, after N successful cycles exactly N active
entries exist, each except the first linking to the immediately
previously-created entry. -/
theorem check_source_appends_chain :
    (∀ (sha : String → String) (engine : CheckSourceService.Engine) (db : DB)
        (u : Nat) (raw : String) (db1 : DB) (art : Option Article)
        (src : Source) (ext : String),
      CheckSourceService.find_active_source db u = some src →
      CheckSourceService.extract_content engine raw (src.watchable_selector.getD "")
        (src.watchable_selector_type.getD (.known .css)) = .ok ext →
      CheckSourceService.check_source sha engine db u raw = .ok (db1, art) →
      db1.watchlogs = db.watchlogs ++
        [{ uuid := db.nextUuid, source_uuid := u
           previous_uuid := (CheckSourceService.get_latest_watchlog db u).map (fun w => w.uuid)
           content_hash := some (CheckSourceService.calculate_hash sha ext)
           created_at := db.nextTime, active := true }]) ∧
    (∀ (sha : String → String) (engine : CheckSourceService.Engine) (u : Nat)
        (db0 dbN : DB) (rs : List String),
      CheckSourceService.run_cycles sha engine u db0 rs = .ok dbN →
      CheckSourceService.source_entries db0 u = [] →
      (∀ x ∈ db0.watchlogs, x.created_at < db0.nextTime) →
      (CheckSourceService.source_entries dbN u).length = rs.length ∧
      CheckSourceService.chain_linked none (CheckSourceService.source_entries dbN u) = true) := by
  constructor
  · intro sha engine db u raw db1 art src ext hsrc hext h
    exact ((check_source_ok_spec sha engine db u raw db1 art src ext hsrc hext h).1).1
  · intro sha engine u db0 dbN rs h hes hinv
    have hl : CheckSourceService.get_latest_watchlog db0 u =
        (CheckSourceService.source_entries db0 u).getLast? := by
      unfold CheckSourceService.get_latest_watchlog
      rw [hes]
      rfl
    have hchain : CheckSourceService.chain_linked none
        (CheckSourceService.source_entries db0 u) = true := by
      rw [hes]
      rfl
    have hres := run_cycles_chain_inv rs sha engine u db0 dbN h hinv hl hchain
    rw [hes] at hres
    simpa using hres

/-- Witness for the C2 theorem: three cycles on `wDb` (bodies `"hello"`,
`"hello"`, `"world"`) leave exactly three active chain-linked entries. -/
theorem check_source_appends_chain_witness :
    (CheckSourceService.source_entries chainDbN 1).length = 3 ∧
    CheckSourceService.chain_linked none (CheckSourceService.source_entries chainDbN 1) = true :=
  (check_source_appends_chain).2 wSha wEngine 1 wDb chainDbN ["hello", "hello", "world"]
    rfl rfl (fun x hx => absurd hx (by simp [wDb]))

/-- Python slicing `s[:n]` yields at most `n` characters. -/
theorem pyTake_length_le (s : String) (n : Nat) : (pyTake s n).length ≤ n :=
  List.length_take_le n s.data

/-- Stripping never lengthens a string. -/
theorem pyStrip_length_le (s : String) : (pyStrip s).length ≤ s.length := by
  show (((s.data.dropWhile isPySpace).reverse.dropWhile isPySpace).reverse).length ≤ s.data.length
  rw [List.length_reverse]
  calc ((s.data.dropWhile isPySpace).reverse.dropWhile isPySpace).length
      ≤ (s.data.dropWhile isPySpace).reverse.length :=
        ((s.data.dropWhile isPySpace).reverse.dropWhile_sublist isPySpace).length_le
    _ = (s.data.dropWhile isPySpace).length := List.length_reverse _
    _ ≤ s.data.length := (s.data.dropWhile_sublist isPySpace).length_le

/-- C8 counterexample: a full pipeline cycle on content whose first line is
empty creates an article titled with the fallback literal
`"New content from source"`, which is not the trimmed first line of the
extracted content — the claim omits this fallback. -/
theorem article_default_title_counterexample :
    blankTitleArticle = some blankTitleArt ∧
    blankTitleArt.title = "New content from source" ∧
    pyStrip (pyTake (firstLine blankTitleContent) 100) = "" ∧
    blankTitleArt.title ≠ pyStrip (pyTake (firstLine blankTitleContent) 100) :=
  ⟨rfl, rfl, rfl, by decide⟩

/-- C8 as amended: for every Article the pipeline creates, the title is the
first line of the extracted content truncated to 100 characters and then
trimmed — except that when this is empty the literal
`"New content from source"` is used — and is at most 100 characters; the
description is the extracted content truncated to 200 characters and trimmed,
populated (non-null, at most 200 characters) iff the extracted content is
longer than 30 characters; and `is_newsworthy` is always true. -/
theorem article_fields_derivation :
    ∀ (sha : String → String) (engine : CheckSourceService.Engine) (db : DB)
      (u : Nat) (raw : String) (db1 : DB) (a : Article) (src : Source) (ext : String),
      CheckSourceService.find_active_source db u = some src →
      CheckSourceService.extract_content engine raw (src.watchable_selector.getD "")
        (src.watchable_selector_type.getD (.known .css)) = .ok ext →
      CheckSourceService.check_source sha engine db u raw = .ok (db1, some a) →
      a.title = (if pyStrip (pyTake (firstLine ext) 100) = "" then
          "New content from source" else pyStrip (pyTake (firstLine ext) 100)) ∧
      a.title.length ≤ 100 ∧
      a.description = (if 30 < ext.length then some (pyStrip (pyTake ext 200)) else none) ∧
      (∀ d, a.description = some d → d.length ≤ 200) ∧
      ((a.description ≠ none) ↔ 30 < ext.length) ∧
      a.is_newsworthy = true ∧
      a.uri = src.uri := by
  intro sha engine db u raw db1 a src ext hsrc hext h
  have hspec := (check_source_ok_spec sha engine db u raw db1 (some a) src ext hsrc hext h).2
  by_cases hc : ((CheckSourceService.get_latest_watchlog db u).bind (fun w => w.content_hash)) = none ∨
      ((CheckSourceService.get_latest_watchlog db u).bind (fun w => w.content_hash)) ≠
        some (CheckSourceService.calculate_hash sha ext)
  · rw [if_pos hc] at hspec
    have ha := Option.some.inj hspec
    refine ⟨by rw [ha], ?_, by rw [ha], ?_, ?_, by rw [ha], by rw [ha]⟩
    · rw [ha]
      show (if pyStrip (pyTake (firstLine ext) 100) = "" then
          "New content from source" else pyStrip (pyTake (firstLine ext) 100)).length ≤ 100
      split_ifs with ht
      · decide
      · exact le_trans (pyStrip_length_le _) (pyTake_length_le _ _)
    · intro d hd
      rw [ha] at hd
      have hd' : (if 30 < ext.length then some (pyStrip (pyTake ext 200)) else none) = some d := hd
      split_ifs at hd' with h30
      rw [← Option.some.inj hd']
      exact le_trans (pyStrip_length_le _) (pyTake_length_le _ _)
    · rw [ha]
      show ((if 30 < ext.length then some (pyStrip (pyTake ext 200)) else none) ≠ none) ↔
        30 < ext.length
      split_ifs with h30 <;> simp [h30]
  · rw [if_neg hc] at hspec
    exact Option.noConfusion hspec

/-- Witness for the amended C8 theorem at the concrete `blankTitleContent`
cycle. -/
theorem article_fields_derivation_witness :
    blankTitleArt.title.length ≤ 100 ∧ blankTitleArt.is_newsworthy = true := by
  have h := article_fields_derivation wSha wEngine wDb 1 blankTitleContent blankTitleDb
    blankTitleArt wSrc blankTitleContent rfl rfl rfl
  exact ⟨h.2.1, h.2.2.2.2.2.1⟩

/-- The collection loop's result is truncated to the requested maximum. -/
theorem collect_items_length_le :
    ∀ (tr : Scraper.PageTrace) (maxr mi : Nat),
      ((Scraper.collect_items tr maxr mi).1).length ≤ mi :=
  fun _ _ mi => List.length_take_le mi _

/-- C9: the scraper returns at most the requested maximum number of items —
whatever the page trace does, including outer-stall-policy exhaustion with
partial results — and requesting 0 items returns an empty list right after
navigation, with zero chunk extractions and zero scroll attempts
performed. -/
theorem scraper_result_bounded_by_max_items :
    (∀ (tr : Scraper.PageTrace) (maxr mi : Nat),
      ((Scraper.collect_items tr maxr mi).1).length ≤ mi) ∧
    (∀ (cfg : Scraper.ScraperConfig) (mr : Option Nat) (nav : Nat → Bool)
        (tr : Scraper.PageTrace) (m : Nat) (items : List String),
      Scraper.extract_content cfg mr true nav tr (some m) = .ok items →
      items.length ≤ m) ∧
    (∀ (tr : Scraper.PageTrace) (maxr : Nat),
      Scraper.collect_items tr maxr 0 =
        ([], { items := [], seen := [], chunkCalls := 0, scrollAttempts := 0 })) ∧
    (∀ (cfg : Scraper.ScraperConfig) (mr : Option Nat) (nav : Nat → Bool)
        (tr : Scraper.PageTrace) (k : Nat),
      Scraper.navigate nav = .ok k →
      Scraper.extract_content cfg mr true nav tr (some 0) = .ok []) := by
  refine ⟨collect_items_length_le, ?_, ?_, ?_⟩
  · intro cfg mr nav tr m items h
    cases hn : Scraper.navigate nav with
    | error e => simp [Scraper.extract_content, hn] at h
    | ok k =>
      simp [Scraper.extract_content, hn] at h
      rw [← h]
      exact collect_items_length_le tr _ m
  · intro tr maxr
    rfl
  · intro cfg mr nav tr k hn
    simp [Scraper.extract_content, hn]
    rfl

/-- Witness for the C9 theorem: a trace with 3 available items and a cap of 2
yields exactly 2 items, within the bound. -/
theorem scraper_result_bounded_by_max_items_witness :
    Scraper.extract_content Scraper.DEFAULT_SETTINGS none true (fun _ => true)
      failingScrollTrace (some 2) = .ok ["a", "b"] ∧
    (["a", "b"] : List String).length ≤ 2 :=
  ⟨rfl, (scraper_result_bounded_by_max_items).2.1 Scraper.DEFAULT_SETTINGS none
    (fun _ => true) failingScrollTrace 2 ["a", "b"] rfl⟩

/-- C7: exhaustion of the scroll step's own 2-attempt retry policy is a
`tenacity.RetryError` (first part), which the collection loop's
`except tenacity.RetryError` absorbs: once the browser context is live and
navigation has succeeded, the scrape always returns a normal result for every
page trace — in particular a persistent scroll failure is never raised to the
caller of `extract_content` as an exception. -/
theorem scroll_exhaustion_never_propagates :
    (∀ (scrolls : Nat → Bool) (s : Nat),
      scrolls s = false → scrolls (s + 1) = false →
      Scraper.scroll_to_load_more scrolls s = (.error (), s + 2)) ∧
    (∀ (cfg : Scraper.ScraperConfig) (mr : Option Nat) (nav : Nat → Bool)
        (tr : Scraper.PageTrace) (mi : Option Nat) (k : Nat),
      Scraper.navigate nav = .ok k →
      ∃ items, Scraper.extract_content cfg mr true nav tr mi = .ok items) := by
  constructor
  · intro scrolls s h1 h2
    simp [Scraper.scroll_to_load_more, h1, h2]
  · intro cfg mr nav tr mi k hn
    exact ⟨(Scraper.collect_items tr (mr.getD cfg.MAX_RETRIES) (mi.getD cfg.DEFAULT_MAX_POSTS)).1,
      by simp [Scraper.extract_content, hn]⟩

/-- Witness for the C7 theorem on a trace whose every scroll attempt fails:
the scroll step's exhaustion is the `RetryError` value, and the scrape still
returns a normal result. -/
theorem scroll_exhaustion_never_propagates_witness :
    Scraper.scroll_to_load_more failingScrollTrace.scrolls 0 = (.error (), 2) ∧
    ∃ items, Scraper.extract_content Scraper.DEFAULT_SETTINGS none true (fun _ => true)
      failingScrollTrace none = .ok items :=
  ⟨(scroll_exhaustion_never_propagates).1 failingScrollTrace.scrolls 0 rfl rfl,
   (scroll_exhaustion_never_propagates).2 Scraper.DEFAULT_SETTINGS none (fun _ => true)
     failingScrollTrace none 1 rfl⟩

end Puteus
